import Mathlib

/-!
# Shallow embedding of the employee task tracker backend

This file embeds the relevant parts of `src/backend/app.py` (a Flask +
SQLAlchemy application) as executable Lean definitions and proves
properties of the task visibility / mutation engine, the session token
codec, the caller-resolution middleware and the dashboard aggregator.

Modelling conventions:
* SQL rows become Lean structures; nullable columns become `Option`.
* The database session becomes an explicit `Store` value threaded through
  the handlers; `db.session.commit()` of a mutated row becomes replacing
  the row in the store's list.
* Python truthiness of the optional values the handlers read
  (`if status:`, `elif employee_id:`) is made explicit: `None`, `0` and
  the empty string are falsy.
* JSON bodies are records of the fields each handler reads with
  `payload.get(...)`.  `payload.get(k)` returns Python `None` both when
  the key is absent and when it is explicitly `null`; where a claim
  distinguishes the two cases the field is modelled as `JsonVal` and the
  handler applies `JsonVal.toPy`, which collapses both to `none` exactly
  as `payload.get` does.
* `DateTime` timestamps (`created_at`, token issuance, "now") are
  abstract `Nat` ticks; `Date` is a year/month/day record.
* Error responses `(jsonify({"error": msg}), code)` become
  `Except.error ⟨code, msg⟩`; mutating handlers return the resulting
  store alongside the response so that frame properties are expressible.
-/

deriving instance DecidableEq for Except

namespace TaskTracker

/-- A row of the `employees` table. -/
structure Employee where
  id : Nat
  name : String
  title : String
  email : String
  role : String
  password_hash : String
deriving DecidableEq, Repr

/-- A calendar date (the SQL `Date` type): no time component. -/
structure Date where
  year : Nat
  month : Nat
  day : Nat
deriving DecidableEq, Repr

/-- A row of the `tasks` table.  `employee_id` and `due_date` are nullable
columns; `created_at` is an abstract timestamp tick. -/
structure Task where
  id : Nat
  title : String
  description : Option String
  status : String
  employee_id : Option Nat
  due_date : Option Date
  created_at : Nat
deriving DecidableEq, Repr

/-- The persistent store backing the two tables. -/
structure Store where
  employees : List Employee
  tasks : List Task
deriving DecidableEq, Repr

/-- An error response `(jsonify({"error": msg}), code)`. -/
structure ApiError where
  code : Nat
  msg : String
deriving DecidableEq, Repr

/-- A JSON field as sent by the client: absent key, explicit `null`, or a
value.  Mirrors what `payload.get(k)` cannot distinguish. -/
inductive JsonVal (α : Type) where
  | absent
  | null
  | val (a : α)
deriving DecidableEq, Repr

/-- Reading `payload.get(k)`: both an absent key and an explicit `null` produce the
Python value `None`. -/
def JsonVal.toPy {α : Type} : JsonVal α → Option α
  | .absent => none
  | .null => none
  | .val a => some a

/-- Python truthiness of an optional string (`None` and `""` are falsy). -/
def truthyStr : Option String → Bool
  | none => false
  | some s => s != ""

/-- Python truthiness of an optional integer (`None` and `0` are falsy). -/
def truthyNat : Option Nat → Bool
  | none => false
  | some n => n != 0

/-- Lookup `Employee.query.get(i)`: by primary key. -/
def findEmployee (s : Store) (i : Nat) : Option Employee :=
  s.employees.find? (fun e => e.id == i)

/-- Lookup `Task.query.get(i)`: by primary key. -/
def findTask (s : Store) (i : Nat) : Option Task :=
  s.tasks.find? (fun t => t.id == i)

/-- Gregorian leap-year rule, as used by Python's `datetime.date`. -/
def isLeap (y : Nat) : Bool :=
  y % 4 == 0 && (y % 100 != 0 || y % 400 == 0)

/-- Number of days in a month, as validated by `datetime.date`. -/
def daysInMonth (y m : Nat) : Nat :=
  if m == 2 then (if isLeap y then 29 else 28)
  else if m == 4 || m == 6 || m == 9 || m == 11 then 30
  else 31

/-- Reads exactly `k` ASCII decimal digits, returning the value and the
remaining characters (CPython's `parse_digits`). -/
def parseDigits : Nat → List Char → Nat → Option (Nat × List Char)
  | 0, cs, acc => some (acc, cs)
  | _ + 1, [], _ => none
  | k + 1, c :: cs, acc =>
    if c.isDigit then parseDigits k cs (acc * 10 + (c.toNat - 48)) else none

/-- Cumulative days before each month in a non-leap year
(CPython's `_DAYS_BEFORE_MONTH`). -/
def daysBeforeMonth : Nat → Nat
  | 1 => 0 | 2 => 31 | 3 => 59 | 4 => 90 | 5 => 120 | 6 => 151
  | 7 => 181 | 8 => 212 | 9 => 243 | 10 => 273 | 11 => 304 | _ => 334

/-- Days in each month of a non-leap year (CPython's `_DAYS_IN_MONTH`). -/
def daysInMonthTable : Nat → Nat
  | 2 => 28 | 4 => 30 | 6 => 30 | 9 => 30 | 11 => 30 | _ => 31

/-- Days in all years strictly before `y` in the proleptic Gregorian
calendar (CPython's `_days_before_year`). -/
def days_before_year (y : Nat) : Nat :=
  let yy := y - 1
  yy * 365 + yy / 4 - yy / 100 + yy / 400

/-- Proleptic-Gregorian ordinal (day 1 = 0001-01-01) back to a
year/month/day triple (CPython's `_ord2ymd`). -/
def ord2ymd (ord : Nat) : Nat × Nat × Nat :=
  let n := ord - 1
  let n400 := n / 146097
  let n := n % 146097
  let n100 := n / 36524
  let n := n % 36524
  let n4 := n / 1461
  let n := n % 1461
  let n1 := n / 365
  let n := n % 365
  let year := n400 * 400 + 1 + n100 * 100 + n4 * 4 + n1
  if n1 == 4 || n100 == 4 then (year - 1, 12, 31)
  else
    let leap := n1 == 3 && (n4 != 24 || n100 == 3)
    let month := (n + 50) / 32
    let preceding := daysBeforeMonth month + (if month > 2 && leap then 1 else 0)
    let month2 := if preceding > n then month - 1 else month
    let preceding2 :=
      if preceding > n then
        preceding - (daysInMonthTable month2 + (if month2 == 2 && leap then 1 else 0))
      else preceding
    (year, month2, n - preceding2 + 1)

/-- Ordinal of the Monday starting ISO week 1 of `year` (CPython's
`_isoweek1monday`). -/
def isoweek1monday (year : Nat) : Nat :=
  let firstday := days_before_year year + 1
  let firstweekday := (firstday + 6) % 7
  let week1monday := firstday - firstweekday
  if firstweekday > 3 then week1monday + 7 else week1monday

/-- ISO week date to calendar date, validating year, week (53 only in
long years) and weekday (CPython's `_isoweek_to_gregorian`). -/
def isoweekToGregorian (year week day : Nat) : Option (Nat × Nat × Nat) :=
  if year < 1 || year > 9999 then none
  else
    let weekOk :=
      if 0 < week && week < 53 then true
      else if week == 53 then
        let fw := (days_before_year year + 1) % 7
        fw == 4 || (fw == 3 && isLeap year)
      else false
    if !weekOk then none
    else if day < 1 || day > 7 then none
    else some (ord2ymd (isoweek1monday year + (week - 1) * 7 + day - 1))

/-- Position of the date/time separator in an ISO string of length ≥ 7,
determined positionally from the date format (CPython's
`_find_isoformat_datetime_separator`); `none` rejects the string. -/
def findIsoSep (cs : List Char) : Option Nat :=
  let n := cs.length
  if n == 7 then some 7
  else if cs.get? 4 == some '-' then
    if cs.get? 5 == some 'W' then
      if n > 8 && cs.get? 8 == some '-' then
        if n == 9 then none
        else if n > 10 && (cs.get? 10).any Char.isDigit then some 8
        else some 10
      else some 8
    else some 10
  else if cs.get? 4 == some 'W' then
    let idx := 7 + ((cs.drop 7).takeWhile Char.isDigit).length
    if idx < 9 then some idx
    else if idx % 2 == 0 then some 7 else some 8
  else some 8

/-- The date portion of an ISO string: 4-digit year, then either an ISO
week (`W` + 2-digit week + optional 1-digit weekday) or a 2-digit month
and day, with consistent use of `-` separators (CPython's
`parse_isoformat_date`); week dates are converted to calendar dates. -/
def parse_isoformat_date (ds : List Char) : Option (Nat × Nat × Nat) :=
  match parseDigits 4 ds 0 with
  | none => none
  | some (year, r1) =>
    let uses_sep := r1.head? == some '-'
    let r2 := if uses_sep then r1.tail else r1
    match r2 with
    | 'W' :: r3 =>
      match parseDigits 2 r3 0 with
      | none => none
      | some (week, r4) =>
        match r4 with
        | [] => isoweekToGregorian year week 1
        | _ =>
          let r5 :=
            if uses_sep then
              (if r4.head? == some '-' then some r4.tail else none)
            else some r4
          match r5 with
          | none => none
          | some r6 =>
            match parseDigits 1 r6 0 with
            | none => none
            | some (day, _) => isoweekToGregorian year week day
    | _ =>
      match parseDigits 2 r2 0 with
      | none => none
      | some (month, r3) =>
        let r4 :=
          if uses_sep then
            (if r3.head? == some '-' then some r3.tail else none)
          else some r3
        match r4 with
        | none => none
        | some r5 =>
          match parseDigits 2 r5 0 with
          | none => none
          | some (day, _) => some (year, month, day)

/-- Scale factor padding a parsed fraction out to microseconds
(CPython's `_FRACTION_CORRECTION`, with 1 at six digits). -/
def fracCorrection : Nat → Nat
  | 1 => 100000 | 2 => 10000 | 3 => 1000 | 4 => 100 | 5 => 10 | _ => 1

/-- The fractional-seconds tail of a time component (CPython's
`parse_hh_mm_ss_ff` after its loop): up to six digits are read, further
digits are skipped, and the Bool records whether the slice was consumed
with nothing left over. -/
def parseFraction (h m s : Nat) (fs : List Char) :
    Option (Nat × Nat × Nat × Nat × Bool) :=
  let lr := fs.length
  let to_parse := if lr ≥ 6 then 6 else lr
  match parseDigits to_parse fs 0 with
  | none => none
  | some (v, rest) =>
    let us := v * fracCorrection to_parse
    some (h, m, s, us, rest.dropWhile Char.isDigit == [])

/-- One `HH`-component step of CPython's `parse_hh_mm_ss_ff`, shared by
the three components: parse two digits, then dispatch on the following
character exactly as the C loop does — stop at the slice boundary
(swallowing one trailing character, marked unclean), continue past `:`
when colons are in use, enter the fraction after `.` or `,`, or re-read
the character as digits in the colon-free format. -/
def parseTimeComp (next : Nat → List Char → Option (Nat × Nat × Nat × Nat × Bool))
    (frac : Nat → List Char → Option (Nat × Nat × Nat × Nat × Bool))
    (fin : Nat → Option (Nat × Nat × Nat × Nat × Bool))
    (has_sep : Bool) (slice : List Char) : Option (Nat × Nat × Nat × Nat × Bool) :=
  match parseDigits 2 slice 0 with
  | none => none
  | some (v, r1) =>
    match r1 with
    | [] => fin v
    | c :: r2 =>
      if r2 == [] then (fin v).map (fun out => (out.1, out.2.1, out.2.2.1, out.2.2.2.1, false))
      else if has_sep && c == ':' then next v r2
      else if c == '.' || c == ',' then frac v r2
      else if !has_sep then next v (c :: r2)
      else none

/-- CPython's `parse_hh_mm_ss_ff` on a time slice: `HH`, `MM`, `SS` in
either the `:`-separated or the colon-free format, then an optional
fraction; the Bool records a clean end of the slice (the C code's
return value 0 rather than 1). -/
def parse_hh_mm_ss_ff (slice : List Char) : Option (Nat × Nat × Nat × Nat × Bool) :=
  match parseDigits 2 slice 0 with
  | none => none
  | some (h, r1) =>
    match r1 with
    | [] => some (h, 0, 0, 0, true)
    | c :: r2 =>
      let has_sep := c == ':'
      if r2 == [] then some (h, 0, 0, 0, false)
      else if has_sep then
        parseTimeComp
          (fun m rm =>
            parseTimeComp
              (fun s rs => parseFraction h m s rs)
              (fun s rs => parseFraction h m s rs)
              (fun s => some (h, m, s, 0, true))
              has_sep rm)
          (fun m rm => parseFraction h m 0 rm)
          (fun m => some (h, m, 0, 0, true))
          has_sep r2
      else if c == '.' || c == ',' then parseFraction h 0 0 r2
      else
        parseTimeComp
          (fun m rm =>
            parseTimeComp
              (fun s rs => parseFraction h m s rs)
              (fun s rs => parseFraction h m s rs)
              (fun s => some (h, m, s, 0, true))
              has_sep rm)
          (fun m rm => parseFraction h m 0 rm)
          (fun m => some (h, m, 0, 0, true))
          has_sep (c :: r2)

/-- CPython's `parse_isoformat_time`: split at the first `Z`, `+` or `-`,
parse the clock part (hour ≤ 23, minute and second ≤ 59 as enforced by
the datetime constructor), then either require `Z` to be final or parse
the offset, which must end cleanly and stay strictly below 24 hours. -/
def parse_isoformat_time (ts : List Char) : Bool :=
  let n := ts.length
  let tzpos := (ts.takeWhile (fun c => !(c == 'Z' || c == '+' || c == '-'))).length
  match parse_hh_mm_ss_ff (ts.take tzpos) with
  | none => false
  | some (h, m, s, _, clean) =>
    let timeOk := h ≤ 23 && m ≤ 59 && s ≤ 59
    if tzpos == n then clean && timeOk
    else
      timeOk &&
      (if ts.get? tzpos == some 'Z' then tzpos + 1 == n
       else
         match parse_hh_mm_ss_ff (ts.drop (tzpos + 1)) with
         | none => false
         | some (th, tm, tss, tus, clean2) =>
           clean2 && (th * 3600 + tm * 60 + tss) * 1000000 + tus < 86400000000)

/-- Transcription of `datetime.fromisoformat(value).date()` as CPython
3.11 implements it: a string of length ≥ 7 is split positionally into a
date portion, an arbitrary one-character separator and a time portion;
the date may be extended (`YYYY-MM-DD`), basic (`YYYYMMDD`) or an ISO
week date; the time and offset must be valid when present; the resulting
calendar date must be in range (year 1–9999).  Transcribed from the
CPython parser and differentially tested against it. -/
def fromisoformat_date (s : String) : Option Date :=
  let cs := s.toList
  let n := cs.length
  if n < 7 then none
  else
    match findIsoSep cs with
    | none => none
    | some sep =>
      match parse_isoformat_date (cs.take sep) with
      | none => none
      | some (y, m, d) =>
        let timeOk :=
          if n > sep then parse_isoformat_time (cs.drop (sep + 1)) else true
        if timeOk && 1 ≤ y && y ≤ 9999 && 1 ≤ m && m ≤ 12 &&
            1 ≤ d && d ≤ daysInMonth y m then
          some ⟨y, m, d⟩
        else none

/-- The helper `parse_date(value)` from app.py: falsy input (`None` or `""`) and any
string that fails ISO parsing yield `None`; never raises. -/
def parse_date (value : Option String) : Option Date :=
  match value with
  | none => none
  | some str => if str = "" then none else fromisoformat_date str

/-- One insertion step of sorting tasks newest-created first. -/
def insertByCreatedDesc (t : Task) : List Task → List Task
  | [] => [t]
  | u :: us =>
    if Nat.ble u.created_at t.created_at then t :: u :: us
    else u :: insertByCreatedDesc t us

/-- Ordering `query.order_by(Task.created_at.desc())`: newest-created first. -/
def sortByCreatedDesc : List Task → List Task
  | [] => []
  | t :: ts => insertByCreatedDesc t (sortByCreatedDesc ts)

/-- Handler for `GET /tasks` (`get_tasks`): optional exact `status` filter; non-admin
callers are forced onto their own tasks, admins may filter by a truthy
`employee_id` query parameter; result ordered newest first. -/
def get_tasks (caller : Employee) (status : Option String)
    (employee_id : Option Nat) (s : Store) : List Task :=
  let q := s.tasks
  let q := if truthyStr status then q.filter (fun t => t.status == status.getD "") else q
  let q :=
    if caller.role != "admin" then
      q.filter (fun t => t.employee_id == some caller.id)
    else if truthyNat employee_id then
      q.filter (fun t => t.employee_id == employee_id)
    else q
  sortByCreatedDesc q

/-- The JSON body read by `POST /tasks`.  `status` is read with
`payload.get("status", "pending")`, so only absence (→ default) is
modelled; the other fields are read with plain `payload.get`. -/
structure CreatePayload where
  title : Option String
  status : Option String
  description : Option String
  employee_id : JsonVal Nat
  due_date : Option String
deriving DecidableEq, Repr

/-- The fresh primary key SQLite assigns to an inserted task. -/
def newTaskId (s : Store) : Nat :=
  (s.tasks.foldr (fun t m => max t.id m) 0) + 1

/-- Handler for `POST /tasks` (`create_task`): requires a truthy title; non-admin
callers are force-assigned as owner; an admin-supplied truthy
`employee_id` must exist; the row is inserted with a fresh id and the
server-set `created_at` tick `now`. -/
def create_task (caller : Employee) (p : CreatePayload) (now : Nat)
    (s : Store) : Except ApiError Task × Store :=
  if truthyStr p.title = false then
    (.error ⟨400, "Title is required."⟩, s)
  else
    let status := p.status.getD "pending"
    let employee_id := p.employee_id.toPy
    let due_date := parse_date p.due_date
    let insert : Option Nat → Except ApiError Task × Store := fun eid =>
      let task : Task :=
        { id := newTaskId s, title := p.title.getD "", description := p.description,
          status := status, employee_id := eid, due_date := due_date, created_at := now }
      (.ok task, { s with tasks := s.tasks ++ [task] })
    if caller.role != "admin" then
      insert (some caller.id)
    else if truthyNat employee_id && (findEmployee s (employee_id.getD 0)).isNone then
      (.error ⟨404, "Employee not found."⟩, s)
    else
      insert employee_id

/-- The JSON body read by `PUT /tasks/<id>`.  `employee_id` is kept as a
raw JSON field because the handler's `is not None` test is sensitive to
how `payload.get` collapses `null` and absence. -/
structure UpdatePayload where
  status : Option String
  description : Option String
  employee_id : JsonVal Nat
  due_date : Option String
deriving DecidableEq, Repr

/-- The `employee_id` block of `update_task`: when the caller is admin and
the payload's `employee_id` is not Python `None`, a truthy value must
refer to an existing employee (else 404) and is then stored — including
the falsy value `0`, which skips the existence check. -/
def adminEmployeeIdStep (caller : Employee) (s : Store) (employee_id : Option Nat)
    (task : Task) : Except ApiError Task :=
  if caller.role == "admin" then
    match employee_id with
    | some eid =>
      if eid != 0 && (findEmployee s eid).isNone then
        .error ⟨404, "Employee not found."⟩
      else
        .ok { task with employee_id := some eid }
    | none => .ok task
  else .ok task

/-- The field-update block of `update_task`: truthy `status`, non-`None`
`description` and a successfully parsed `due_date` are applied to the
row, in that order. -/
def applyFieldUpdates (p : UpdatePayload) (t1 : Task) : Task :=
  let t2 := if truthyStr p.status then { t1 with status := p.status.getD "" } else t1
  let t3 :=
    match p.description with
    | some d => { t2 with description := some d }
    | none => t2
  match parse_date p.due_date with
  | some d => { t3 with due_date := some d }
  | none => t3

/-- Handler for `PUT /tasks/<id>` (`update_task`): 404 when the task is missing, 403
unless the caller is admin or the current owner; then the `employee_id`
block and the field updates run and the mutated row is committed back
into the store. -/
def update_task (caller : Employee) (task_id : Nat) (p : UpdatePayload)
    (s : Store) : Except ApiError Task × Store :=
  match findTask s task_id with
  | none => (.error ⟨404, "Task not found."⟩, s)
  | some task =>
    if caller.role != "admin" && task.employee_id != some caller.id then
      (.error ⟨403, "Forbidden"⟩, s)
    else
      match adminEmployeeIdStep caller s p.employee_id.toPy task with
      | .error e => (.error e, s)
      | .ok t1 =>
        let t4 := applyFieldUpdates p t1
        (.ok t4, { s with tasks := s.tasks.map (fun u => if u.id == task_id then t4 else u) })

/-- The payload `{"id": ..., "role": ...}` signed into a session token. -/
structure TokenPayload where
  id : Nat
  role : String
deriving DecidableEq, Repr

/-- A session token produced by `URLSafeTimedSerializer`: the serialized
payload, the issuance timestamp, and a signature over both. -/
structure Token where
  payload : TokenPayload
  issuedAt : Nat
  sig : String
deriving DecidableEq, Repr

/-- The deterministic MAC the serializer computes from the signing secret,
the payload, and the issuance timestamp.  HMAC is modelled as an
injective tagged serialization: verification only ever compares a
presented signature against this recomputation. -/
def mac (secret : String) (p : TokenPayload) (t : Nat) : String :=
  secret ++ "|" ++ toString p.id ++ "|" ++ p.role ++ "|" ++ toString t

/-- Issuance `serializer.dumps(payload)`: signs the payload with the current
timestamp. -/
def dumps (secret : String) (p : TokenPayload) (now : Nat) : Token :=
  { payload := p, issuedAt := now, sig := mac secret p now }

/-- Verification `serializer.loads(token, max_age=ttl)` at time `now`:
yields the payload when the signature matches and the age does not
exceed the time-to-live; otherwise the serializer raises
`BadSignature`/`SignatureExpired`, modelled as `none`. -/
def loads (secret : String) (tok : Token) (now ttl : Nat) : Option TokenPayload :=
  if tok.sig == mac secret tok.payload tok.issuedAt && Nat.ble (now - tok.issuedAt) ttl then
    some tok.payload
  else none

/-- The token `POST /auth/login` issues for an authenticated employee:
`serializer.dumps({"id": employee.id, "role": employee.role})`. -/
def login_token (secret : String) (e : Employee) (now : Nat) : Token :=
  dumps secret ⟨e.id, e.role⟩ now

/-- The `Authorization` header of a request: absent, not a `Bearer`
scheme, or a bearer token. -/
inductive AuthHeader where
  | missing
  | malformed (value : String)
  | bearer (tok : Token)
deriving DecidableEq, Repr

/-- Caller resolution `get_current_user()`: extracts the bearer token, verifies it, rejects
a falsy embedded id, and resolves the employee from the store (the role
embedded in the token is never consulted). -/
def get_current_user (secret : String) (ttl : Nat) (s : Store)
    (hdr : AuthHeader) (now : Nat) : Option Employee :=
  match hdr with
  | .missing => none
  | .malformed _ => none
  | .bearer tok =>
    match loads secret tok now ttl with
    | none => none
    | some payload =>
      if payload.id == 0 then none
      else findEmployee s payload.id

/-- The `require_auth(role)` decorator around a handler: 401 when no
caller resolves, 403 when a required role does not match, otherwise the
handler runs with the resolved caller. -/
def require_auth {α : Type} (secret : String) (ttl : Nat) (s : Store)
    (role : Option String) (hdr : AuthHeader) (now : Nat)
    (handler : Employee → Except ApiError α) : Except ApiError α :=
  match get_current_user secret ttl s hdr now with
  | none => .error ⟨401, "Unauthorized"⟩
  | some user =>
    match role with
    | some r => if user.role != r then .error ⟨403, "Forbidden"⟩ else handler user
    | none => handler user

/-- The floor of a rational, computed by floor-division of the reduced
numerator by the (positive) denominator. -/
def ratFloor (q : ℚ) : ℤ :=
  Int.fdiv q.num q.den

/-- Python's `round` to an integer: round-half-to-even on the exact
rational value. -/
def pyRoundInt (q : ℚ) : ℤ :=
  if q - ratFloor q < 1 / 2 then ratFloor q
  else if q - ratFloor q > 1 / 2 then ratFloor q + 1
  else if ratFloor q % 2 = 0 then ratFloor q else ratFloor q + 1

/-- Python's `round(q, 2)`: round-half-to-even at two decimal places. -/
def round2 (q : ℚ) : ℚ := (pyRoundInt (q * 100) : ℚ) / 100

/-- The JSON object returned by `GET /api/dashboard`. -/
structure DashboardSummary where
  total_tasks : Nat
  completed_tasks : Nat
  pending_tasks : Nat
  completion_rate : ℚ
  employee_count : Nat
deriving DecidableEq, Repr

/-- Handler for `GET /api/dashboard` (`get_dashboard_summary`): task counts, the
completion rate rounded to two decimals (0 when there are no tasks),
and the employee count. -/
def get_dashboard_summary (s : Store) : DashboardSummary :=
  let total_tasks := s.tasks.length
  let completed_tasks := (s.tasks.filter (fun t => t.status == "completed")).length
  let pending_tasks := (s.tasks.filter (fun t => t.status != "completed")).length
  let completion_rate : ℚ :=
    if total_tasks ≠ 0 then ((completed_tasks : ℚ) / (total_tasks : ℚ)) * 100 else 0
  { total_tasks := total_tasks, completed_tasks := completed_tasks,
    pending_tasks := pending_tasks, completion_rate := round2 completion_rate,
    employee_count := s.employees.length }

/-! ## Fixtures

Concrete values mirroring `seed_data()`: three employees (ids assigned
1, 2, 3 at flush) and three tasks assigned to them.  Password hashes are
opaque strings; `created_at` ticks follow insertion order. -/

def avery : Employee :=
  ⟨1, "Avery Diaz", "Engineering Manager", "avery@example.com", "admin", "hash-admin123"⟩

def morgan : Employee :=
  ⟨2, "Morgan Lee", "Product Designer", "morgan@example.com", "employee", "hash-design123"⟩

def riley : Employee :=
  ⟨3, "Riley Patel", "Backend Engineer", "riley@example.com", "employee", "hash-build123"⟩

def seedTask1 : Task :=
  ⟨1, "Implement authentication", some "Add login flow and secure the API endpoints.",
    "in_progress", some 1, none, 1⟩

def seedTask2 : Task :=
  ⟨2, "Refresh dashboard visuals", some "Update the UI to match the new design system.",
    "pending", some 2, none, 2⟩

def seedTask3 : Task :=
  ⟨3, "Optimize task queries", some "Reduce dashboard latency by improving the task queries.",
    "completed", some 3, none, 3⟩

def seedStore : Store := ⟨[avery, morgan, riley], [seedTask1, seedTask2, seedTask3]⟩

/-! ## Helper lemmas -/

/-- Inserting into the ordered list adds exactly that task. -/
theorem mem_insertByCreatedDesc {t a : Task} {l : List Task} :
    t ∈ insertByCreatedDesc a l ↔ t = a ∨ t ∈ l := by
  induction l with
  | nil => simp [insertByCreatedDesc]
  | cons u us ih =>
    by_cases h : Nat.ble u.created_at a.created_at = true
    · simp [insertByCreatedDesc, h]
    · simp only [insertByCreatedDesc, if_neg h, List.mem_cons, ih]
      tauto

/-- Sorting by creation time does not change which tasks are listed. -/
theorem mem_sortByCreatedDesc {t : Task} {l : List Task} :
    t ∈ sortByCreatedDesc l ↔ t ∈ l := by
  induction l with
  | nil => simp [sortByCreatedDesc]
  | cons u us ih => simp [sortByCreatedDesc, mem_insertByCreatedDesc, ih]

/-- When the payload's `employee_id` maps to Python `None`, the
`employee_id` block leaves the row untouched. -/
theorem adminEmployeeIdStep_none (caller : Employee) (s : Store) (task : Task) :
    adminEmployeeIdStep caller s none task = .ok task := by
  unfold adminEmployeeIdStep
  split <;> rfl

/-- The falsy id `0` skips the existence check and is stored verbatim. -/
theorem adminEmployeeIdStep_zero (caller : Employee) (s : Store) (task : Task)
    (hadmin : caller.role = "admin") :
    adminEmployeeIdStep caller s (some 0) task = .ok { task with employee_id := some 0 } := by
  unfold adminEmployeeIdStep
  rw [if_pos (beq_iff_eq.mpr hadmin)]
  rfl

/-- The `employee_id` block only ever rewrites the ownership column. -/
theorem adminEmployeeIdStep_preserves (caller : Employee) (s : Store)
    (eid : Option Nat) (task t1 : Task)
    (h : adminEmployeeIdStep caller s eid task = .ok t1) :
    t1.due_date = task.due_date ∧ t1.status = task.status ∧
      t1.description = task.description := by
  unfold adminEmployeeIdStep at h
  split at h
  · cases eid with
    | none => cases h; exact ⟨rfl, rfl, rfl⟩
    | some eid =>
      simp only at h
      split at h
      · cases h
      · cases h; exact ⟨rfl, rfl, rfl⟩
  · cases h; exact ⟨rfl, rfl, rfl⟩

/-- The field-update block never touches the ownership column. -/
theorem applyFieldUpdates_employee_id (p : UpdatePayload) (t1 : Task) :
    (applyFieldUpdates p t1).employee_id = t1.employee_id := by
  unfold applyFieldUpdates
  by_cases h : truthyStr p.status = true <;>
    cases hd : p.description <;> cases hdd : parse_date p.due_date <;>
      simp [h, hd, hdd]

/-- When the due-date input does not parse, the field-update block leaves
the stored due date untouched. -/
theorem applyFieldUpdates_due_date_unparsable (p : UpdatePayload) (t1 : Task)
    (hdate : parse_date p.due_date = none) :
    (applyFieldUpdates p t1).due_date = t1.due_date := by
  unfold applyFieldUpdates
  by_cases h : truthyStr p.status = true <;>
    cases hd : p.description <;> simp [h, hd, hdate]

/-- A truthy status input is applied by the field-update block. -/
theorem applyFieldUpdates_status (p : UpdatePayload) (t1 : Task)
    (hst : truthyStr p.status = true) :
    (applyFieldUpdates p t1).status = p.status.getD "" := by
  unfold applyFieldUpdates
  cases hd : p.description <;> cases hdd : parse_date p.due_date <;> simp [hst, hd, hdd]

/-- A supplied description is applied by the field-update block. -/
theorem applyFieldUpdates_description (p : UpdatePayload) (t1 : Task) (d : String)
    (hd : p.description = some d) :
    (applyFieldUpdates p t1).description = some d := by
  unfold applyFieldUpdates
  by_cases h : truthyStr p.status = true <;> cases hdd : parse_date p.due_date <;>
    simp [h, hd, hdd]

/-! ## Claims -/

/-- C1: for every non-admin caller and every combination of requested
status and employee-id filters, `GET /tasks` returns only tasks whose
`employee_id` equals the caller's id; no task owned by another employee
or unassigned ever appears in the result. -/
theorem get_tasks_nonadmin_only_own (caller : Employee) (status : Option String)
    (employee_id : Option Nat) (s : Store) (t : Task)
    (hrole : caller.role ≠ "admin")
    (hmem : t ∈ get_tasks caller status employee_id s) :
    t.employee_id = some caller.id := by
  have hb : (caller.role != "admin") = true := by
    simp only [bne_iff_ne, ne_eq]
    exact hrole
  simp only [get_tasks, hb, if_true] at hmem
  rw [mem_sortByCreatedDesc] at hmem
  rcases List.mem_filter.mp hmem with ⟨-, hown⟩
  exact beq_iff_eq.mp hown

theorem get_tasks_nonadmin_only_own_witness :
    seedTask2.employee_id = some morgan.id :=
  get_tasks_nonadmin_only_own morgan none none seedStore seedTask2
    (by decide) (by decide)

/-- C2: for every non-admin caller and every create input with a truthy
title, `POST /tasks` succeeds and the created task's `employee_id` is the
caller's id, even when the input supplies a different `employeeId` (the
supplied value is overridden, not an error). -/
theorem create_task_nonadmin_forces_owner (caller : Employee) (p : CreatePayload)
    (now : Nat) (s : Store)
    (hrole : caller.role ≠ "admin") (htitle : truthyStr p.title = true) :
    ((create_task caller p now s).1).map Task.employee_id = Except.ok (some caller.id) := by
  have hb : (caller.role != "admin") = true := by
    simp only [bne_iff_ne, ne_eq]
    exact hrole
  simp [create_task, htitle, hb, Except.map]

theorem create_task_nonadmin_forces_owner_witness :
    ((create_task morgan ⟨some "Ship the redesign", none, none, JsonVal.val 3, none⟩
        9 seedStore).1).map Task.employee_id = Except.ok (some morgan.id) :=
  create_task_nonadmin_forces_owner morgan
    ⟨some "Ship the redesign", none, none, JsonVal.val 3, none⟩ 9 seedStore
    (by decide) (by decide)

/-- C3: for every existing task and every caller who is neither admin nor
the task's current owner, `PUT /tasks/<id>` fails with 403 Forbidden and
the store — hence every stored field of the task — is unchanged,
regardless of the update input. -/
theorem update_task_nonowner_forbidden (caller : Employee) (task_id : Nat)
    (p : UpdatePayload) (s : Store) (t : Task)
    (hfind : findTask s task_id = some t)
    (hrole : caller.role ≠ "admin")
    (hown : t.employee_id ≠ some caller.id) :
    update_task caller task_id p s = (Except.error ⟨403, "Forbidden"⟩, s) := by
  have hc : (caller.role != "admin" && t.employee_id != some caller.id) = true := by
    simp only [Bool.and_eq_true, bne_iff_ne, ne_eq]
    exact ⟨hrole, hown⟩
  simp [update_task, hfind, hc]

theorem update_task_nonowner_forbidden_witness :
    update_task riley 2 ⟨some "completed", some "hijack", JsonVal.val 3, some "2026-01-01"⟩
      seedStore = (Except.error ⟨403, "Forbidden"⟩, seedStore) :=
  update_task_nonowner_forbidden riley 2
    ⟨some "completed", some "hijack", JsonVal.val 3, some "2026-01-01"⟩
    seedStore seedTask2 (by decide) (by decide) (by decide)

/-- C4 (counterexample): an admin sending an explicit `null` for
`employeeId` on seeded task 2 does NOT unassign it — `payload.get`
collapses `null` to the same Python `None` an absent key produces, so
the `is not None` guard skips the write and `employee_id` stays `2`. -/
theorem update_task_admin_null_counterexample :
    (update_task avery 2 ⟨none, none, JsonVal.null, none⟩ seedStore).1.map Task.employee_id
        = Except.ok (some 2) ∧
      (some 2 : Option Nat) ≠ none := by decide

/-- C4 (amended): for every admin caller and every existing task, an
update input whose `employeeId` is explicit `null` or absent leaves the
task's `employee_id` unchanged (explicit `null` is indistinguishable from
omission and does not unassign), while the falsy non-`null` value `0` is
stored verbatim — setting `employee_id` to `0` without an existence
check — rather than unassigning to `null`. -/
theorem update_task_admin_falsy_employee_id (caller : Employee) (task_id : Nat)
    (p : UpdatePayload) (s : Store) (t : Task)
    (hfind : findTask s task_id = some t)
    (hadmin : caller.role = "admin") :
    (p.employee_id.toPy = none →
      (update_task caller task_id p s).1.map Task.employee_id = Except.ok t.employee_id) ∧
    (p.employee_id = JsonVal.val 0 →
      (update_task caller task_id p s).1.map Task.employee_id = Except.ok (some 0)) := by
  have hb : (caller.role != "admin") = false := by
    simp [bne_iff_ne, hadmin]
  constructor
  · intro hnone
    simp only [update_task, hfind, hb, Bool.false_and, Bool.false_eq_true, if_false, hnone,
      adminEmployeeIdStep_none]
    simp [Except.map, applyFieldUpdates_employee_id]
  · intro hzero
    have hpy : p.employee_id.toPy = some 0 := by rw [hzero]; rfl
    simp only [update_task, hfind, hb, Bool.false_and, Bool.false_eq_true, if_false, hpy,
      adminEmployeeIdStep_zero caller s t hadmin]
    simp [Except.map, applyFieldUpdates_employee_id]

theorem update_task_admin_falsy_employee_id_witness :
    (update_task avery 3 ⟨none, none, JsonVal.null, none⟩ seedStore).1.map Task.employee_id
        = Except.ok seedTask3.employee_id ∧
    (update_task avery 3 ⟨none, none, JsonVal.val 0, none⟩ seedStore).1.map Task.employee_id
        = Except.ok (some 0) :=
  ⟨(update_task_admin_falsy_employee_id avery 3 ⟨none, none, JsonVal.null, none⟩
      seedStore seedTask3 (by decide) (by decide)).1 (by decide),
   (update_task_admin_falsy_employee_id avery 3 ⟨none, none, JsonVal.val 0, none⟩
      seedStore seedTask3 (by decide) (by decide)).2 (by decide)⟩

/-- C5 (counterexample): the seeded store has no employee with id `0`,
yet an admin `POST /tasks` supplying `employeeId = 0` does not fail with
404 — `0` is falsy, so the existence check is skipped and a task with
`employee_id = 0` is created. -/
theorem create_task_admin_zero_counterexample :
    findEmployee seedStore 0 = none ∧
    (create_task avery ⟨some "Triage backlog", none, none, JsonVal.val 0, none⟩
        9 seedStore).1.map Task.employee_id = Except.ok (some 0) := by decide

/-- C5 (amended): for every admin caller (with a truthy title), a
supplied NONZERO `employeeId` that refers to no existing employee fails
with 404 NotFound and the store is unchanged (no task is created); the
falsy id `0` instead bypasses the existence check and creates a task
with `employee_id = 0`; an omitted or `null` `employeeId` succeeds and
creates an unassigned task. -/
theorem create_task_admin_employee_id_rules (caller : Employee) (p : CreatePayload)
    (now : Nat) (s : Store) (n : Nat)
    (hadmin : caller.role = "admin") (htitle : truthyStr p.title = true) :
    (p.employee_id = JsonVal.val n → n ≠ 0 → findEmployee s n = none →
      create_task caller p now s = (Except.error ⟨404, "Employee not found."⟩, s)) ∧
    (p.employee_id = JsonVal.val 0 →
      (create_task caller p now s).1.map Task.employee_id = Except.ok (some 0)) ∧
    (p.employee_id.toPy = none →
      (create_task caller p now s).1.map Task.employee_id = Except.ok none) := by
  have hb : (caller.role != "admin") = false := by
    simp [bne_iff_ne, hadmin]
  refine ⟨fun hval hnz hmiss => ?_, fun hzero => ?_, fun hnone => ?_⟩
  · have hpy : p.employee_id.toPy = some n := by rw [hval]; rfl
    simp [create_task, htitle, hb, hpy, truthyNat, hmiss, hnz]
  · have hpy : p.employee_id.toPy = some 0 := by rw [hzero]; rfl
    simp [create_task, htitle, hb, hpy, truthyNat, Except.map]
  · simp [create_task, htitle, hb, hnone, truthyNat, Except.map]

theorem create_task_admin_employee_id_rules_witness :
    create_task avery ⟨some "Plan offsite", none, none, JsonVal.val 9, none⟩ 9 seedStore
        = (Except.error ⟨404, "Employee not found."⟩, seedStore) ∧
    (create_task avery ⟨some "Plan offsite", none, none, JsonVal.val 0, none⟩
        9 seedStore).1.map Task.employee_id = Except.ok (some 0) ∧
    (create_task avery ⟨some "Plan offsite", none, none, JsonVal.null, none⟩
        9 seedStore).1.map Task.employee_id = Except.ok none :=
  ⟨(create_task_admin_employee_id_rules avery
      ⟨some "Plan offsite", none, none, JsonVal.val 9, none⟩ 9 seedStore 9
      (by decide) (by decide)).1 rfl (by decide) (by decide),
   (create_task_admin_employee_id_rules avery
      ⟨some "Plan offsite", none, none, JsonVal.val 0, none⟩ 9 seedStore 0
      (by decide) (by decide)).2.1 rfl,
   (create_task_admin_employee_id_rules avery
      ⟨some "Plan offsite", none, none, JsonVal.null, none⟩ 9 seedStore 0
      (by decide) (by decide)).2.2 rfl⟩

/-- C6: for every authorized update (caller is admin or the owner) whose
`dueDate` input is absent or does not parse as an ISO calendar date, the
task's stored `due_date` after the call equals its value before the call
— a non-null `due_date` is never nulled out by a parse failure — while a
truthy supplied `status` and a supplied `description` still apply; on
any error response the store is unchanged. -/
theorem update_task_unparsable_due_date (caller : Employee) (task_id : Nat)
    (p : UpdatePayload) (s : Store) (t : Task)
    (hfind : findTask s task_id = some t)
    (hauth : caller.role = "admin" ∨ t.employee_id = some caller.id)
    (hdate : parse_date p.due_date = none) :
    (∀ t2, (update_task caller task_id p s).1 = Except.ok t2 →
      t2.due_date = t.due_date ∧
      (truthyStr p.status = true → t2.status = p.status.getD "") ∧
      (∀ d, p.description = some d → t2.description = some d)) ∧
    (∀ e, (update_task caller task_id p s).1 = Except.error e →
      (update_task caller task_id p s).2 = s) := by
  have hcond : (caller.role != "admin" && t.employee_id != some caller.id) = false := by
    rcases hauth with h | h <;> simp [bne_iff_ne, h]
  simp only [update_task, hfind, hcond, Bool.false_eq_true, if_false]
  cases hstep : adminEmployeeIdStep caller s p.employee_id.toPy t with
  | error e =>
    refine ⟨fun t2 h => by simp at h, fun e2 h => rfl⟩
  | ok t1 =>
    refine ⟨fun t2 h => ?_, fun e2 h => by simp at h⟩
    have ht2 : t2 = applyFieldUpdates p t1 := by
      simpa using h.symm
    subst ht2
    refine ⟨?_, fun hst => applyFieldUpdates_status p t1 hst,
      fun d hd => applyFieldUpdates_description p t1 d hd⟩
    rw [applyFieldUpdates_due_date_unparsable p t1 hdate,
      (adminEmployeeIdStep_preserves caller s p.employee_id.toPy t t1 hstep).1]

theorem update_task_unparsable_due_date_witness :
    parse_date (some "next tuesday") = none ∧
    (update_task avery 2 ⟨some "completed", some "polished", JsonVal.absent,
        some "next tuesday"⟩ seedStore).1
      = Except.ok ⟨2, "Refresh dashboard visuals", some "polished", "completed",
          some 2, none, 2⟩ ∧
    (⟨2, "Refresh dashboard visuals", some "polished", "completed", some 2, none, 2⟩ :
        Task).due_date = seedTask2.due_date :=
  ⟨by decide, by decide,
    ((update_task_unparsable_due_date avery 2
      ⟨some "completed", some "polished", JsonVal.absent, some "next tuesday"⟩
      seedStore seedTask2 (by decide) (Or.inl (by decide)) (by decide)).1
      ⟨2, "Refresh dashboard visuals", some "polished", "completed", some 2, none, 2⟩
      (by decide)).1⟩

/-- C7: for every request whose bearer token is validly signed and
unexpired but whose embedded employee id matches no employee in the
store, caller resolution yields `none` and every wrapped operation fails
with 401 Unauthorized — whatever role the token embeds, the stale
identity beyond the id is never trusted. -/
theorem stale_token_fails_closed (secret : String) (ttl now : Nat) (s : Store)
    (tok : Token)
    (hsig : tok.sig = mac secret tok.payload tok.issuedAt)
    (hfresh : now - tok.issuedAt ≤ ttl)
    (hmiss : findEmployee s tok.payload.id = none) :
    get_current_user secret ttl s (.bearer tok) now = none ∧
    ∀ (α : Type) (role : Option String) (handler : Employee → Except ApiError α),
      require_auth secret ttl s role (.bearer tok) now handler
        = Except.error ⟨401, "Unauthorized"⟩ := by
  have hload : loads secret tok now ttl = some tok.payload := by
    simp [loads, hsig, hfresh]
  have hget : get_current_user secret ttl s (.bearer tok) now = none := by
    by_cases h0 : tok.payload.id = 0 <;>
      simp [get_current_user, hload, h0, hmiss]
  exact ⟨hget, fun α role handler => by simp [require_auth, hget]⟩

theorem stale_token_fails_closed_witness :
    get_current_user "dev-change-me" 604800 seedStore
        (.bearer (dumps "dev-change-me" ⟨9, "admin"⟩ 100)) 200 = none ∧
    require_auth "dev-change-me" 604800 seedStore none
        (.bearer (dumps "dev-change-me" ⟨9, "admin"⟩ 100)) 200
        (fun e => Except.ok e.id)
      = Except.error ⟨401, "Unauthorized"⟩ :=
  ⟨(stale_token_fails_closed "dev-change-me" 604800 200 seedStore
      (dumps "dev-change-me" ⟨9, "admin"⟩ 100) rfl (by decide) (by decide)).1,
   (stale_token_fails_closed "dev-change-me" 604800 200 seedStore
      (dumps "dev-change-me" ⟨9, "admin"⟩ 100) rfl (by decide) (by decide)).2
      Nat none (fun e => Except.ok e.id)⟩

/-- C8: a token issued at login for an employee and verified within the
time-to-live decodes back to the same id and role; a token whose
signature does not match the recomputed MAC, or whose age exceeds the
time-to-live at verification time, always verifies as invalid and
resolves no caller. -/
theorem token_roundtrip_and_reject (secret : String) (e : Employee)
    (issued vnow ttl : Nat) (tok : Token) (s : Store) :
    (vnow - issued ≤ ttl →
      loads secret (login_token secret e issued) vnow ttl = some ⟨e.id, e.role⟩) ∧
    (tok.sig ≠ mac secret tok.payload tok.issuedAt →
      loads secret tok vnow ttl = none ∧
      get_current_user secret ttl s (.bearer tok) vnow = none) ∧
    (ttl < vnow - tok.issuedAt →
      loads secret tok vnow ttl = none ∧
      get_current_user secret ttl s (.bearer tok) vnow = none) := by
  refine ⟨fun hfresh => ?_, fun hbad => ?_, fun hold => ?_⟩
  · simp [loads, login_token, dumps, hfresh]
  · have hl : loads secret tok vnow ttl = none := by
      simp [loads, hbad]
    exact ⟨hl, by simp [get_current_user, hl]⟩
  · have hl : loads secret tok vnow ttl = none := by
      simp [loads, Nat.not_le.mpr hold]
    exact ⟨hl, by simp [get_current_user, hl]⟩

theorem token_roundtrip_and_reject_witness :
    loads "dev-change-me" (login_token "dev-change-me" morgan 100) 7200 604800
        = some ⟨morgan.id, morgan.role⟩ ∧
    loads "dev-change-me" ⟨⟨2, "admin"⟩, 100, "forged"⟩ 7200 604800 = none ∧
    loads "dev-change-me" (login_token "dev-change-me" morgan 100) 999999999 604800
        = none :=
  ⟨(token_roundtrip_and_reject "dev-change-me" morgan 100 7200 604800
      ⟨⟨2, "admin"⟩, 100, "forged"⟩ seedStore).1 (by decide),
   ((token_roundtrip_and_reject "dev-change-me" morgan 100 7200 604800
      ⟨⟨2, "admin"⟩, 100, "forged"⟩ seedStore).2.1 (by decide)).1,
   ((token_roundtrip_and_reject "dev-change-me" morgan 100 999999999 604800
      (login_token "dev-change-me" morgan 100) seedStore).2.2 (by decide)).1⟩

/-- C9: the dashboard's `completion_rate` equals
`completed_tasks / total_tasks * 100` rounded to two decimal places, and
equals exactly `0` when `total_tasks` is `0`. -/
theorem dashboard_completion_rate_spec (s : Store) :
    ((get_dashboard_summary s).total_tasks = 0 →
      (get_dashboard_summary s).completion_rate = 0) ∧
    ((get_dashboard_summary s).total_tasks ≠ 0 →
      (get_dashboard_summary s).completion_rate =
        round2 (((get_dashboard_summary s).completed_tasks : ℚ) /
          ((get_dashboard_summary s).total_tasks : ℚ) * 100)) := by
  constructor
  · intro h
    simp only [get_dashboard_summary] at h ⊢
    rw [if_neg (by simpa using h)]
    with_unfolding_all rfl
  · intro h
    simp only [get_dashboard_summary] at h ⊢
    rw [if_pos (by simpa using h)]

theorem dashboard_completion_rate_spec_witness :
    (get_dashboard_summary ⟨[], []⟩).completion_rate = 0 ∧
    (get_dashboard_summary seedStore).completion_rate = 3333 / 100 := by
  constructor
  · exact (dashboard_completion_rate_spec ⟨[], []⟩).1 (by decide)
  · rw [(dashboard_completion_rate_spec seedStore).2 (by decide)]
    with_unfolding_all rfl

/-- C10: the dashboard counts partition the tasks — `total_tasks` always
equals `completed_tasks + pending_tasks`, because `pending_tasks` counts
every task whose status differs from "completed", not only those
literally marked "pending". -/
theorem dashboard_counts_partition (s : Store) :
    (get_dashboard_summary s).total_tasks =
      (get_dashboard_summary s).completed_tasks +
        (get_dashboard_summary s).pending_tasks := by
  simp only [get_dashboard_summary]
  induction s.tasks with
  | nil => rfl
  | cons t ts ih =>
    by_cases h : (t.status == "completed") = true <;>
      simp [List.filter, bne, h, ih] <;> omega

end TaskTracker
